import Mathlib

/-!
Shallow embedding of the per-connection request handler `handle_client`
of `src/http-client-server.py`, together with the string helpers it uses
(`str.split()`, `str.split(" ")`, `str.strip()`, `str.startswith`).

Modelling conventions:
- A point in time (`time.time()`) is a natural number of seconds.
- The socket is modelled by the trace of its `recv` results: each loop
  iteration is a triple `(t1, t2, data)` where `t1` is the clock value at
  the `while` condition check, `data` is the decoded text returned by
  `sock.recv(512).decode("UTF-8")` on that iteration, and `t2` is the clock
  value read by the `time.time()` call after a GET request has been handled
  (line 89 of the source); `t2` is unused on iterations not reaching it.
- The filesystem is a function from path strings to an `OpenResult`:
  success with the file's full text, a `FileNotFoundError` with its
  message, or any other open/read error with its message.  Only
  `FileNotFoundError` is caught by the source (line 84).
- Everything sent over the socket with `sock.sendall` is collected in
  `sent`; everything printed with `thread_print` is collected in `logs`.
-/

/-- The whitespace characters split on by Python `str.split()` and stripped
by `str.strip()` (ASCII portion). -/
def isPySpace (c : Char) : Bool :=
  c = ' ' || c = '\t' || c = '\n' || c = '\r' || c = '\x0b' || c = '\x0c'

/-- Helper for `pySplitWs`: walks the characters, accumulating the current
token in reverse; whitespace runs produce no empty tokens. -/
def wsTokensAux : List Char → List Char → List String
  | [], acc => if acc.isEmpty then [] else [String.mk acc.reverse]
  | c :: cs, acc =>
    if isPySpace c then
      if acc.isEmpty then wsTokensAux cs []
      else String.mk acc.reverse :: wsTokensAux cs []
    else wsTokensAux cs (c :: acc)

/-- Python `s.split()` (no argument): split on runs of whitespace,
discarding empty tokens. -/
def pySplitWs (s : String) : List String := wsTokensAux s.toList []

/-- Helper for `pySplitSpace`: splits at every single space character,
keeping empty tokens, as Python `s.split(" ")` does. -/
def spaceSplitAux : List Char → List Char → List String
  | [], acc => [String.mk acc.reverse]
  | c :: cs, acc =>
    if c = ' ' then String.mk acc.reverse :: spaceSplitAux cs []
    else spaceSplitAux cs (c :: acc)

/-- Python `s.split(" ")`: split at each space, keeping empty tokens. -/
def pySplitSpace (s : String) : List String := spaceSplitAux s.toList []

/-- Python `s.strip()`: drop whitespace from both ends. -/
def pyStrip (s : String) : String :=
  String.mk (((s.toList.dropWhile isPySpace).reverse.dropWhile isPySpace).reverse)

/-- Python `s.startswith(p)`. -/
def pyStartsWith (s p : String) : Bool := p.toList.isPrefixOf s.toList

/-- Result of Python `open(location, "r")` followed by `file.readlines()`:
either the file's full text, a `FileNotFoundError` carrying its message, or
any other exception (e.g. `IsADirectoryError`, `PermissionError`) carrying
its message. -/
inductive OpenResult where
  | ok (content : String)
  | errNotFound (msg : String)
  | errOther (msg : String)
deriving DecidableEq, Repr

/-- The filesystem as seen through `open(·, "r")` + `readlines()`. -/
def FileSystem : Type := String → OpenResult

/-- `timeout = 30` (line 34 of the source). -/
def timeout : Nat := 30

/-- The literal protocol version string compared against (line 50). -/
def httpVersion : String := "HTTP/1.1"

/-- The 505 payload sent on a version mismatch (lines 52-53). -/
def resp505 : String :=
  "HTTP/1.1 505 HTTP Version not supported\r\n\r\nServer only accepts HTTP/1.1. Please try again."

/-- The bare 500 status text sent for non-GET requests (line 94): no
`\r\n\r\n` separator and no body. -/
def resp500 : String := "HTTP/1.1 500 Internal Server Error"

/-- The empty-body 404 sent for `/favicon.ico` (line 65). -/
def resp404fav : String := "HTTP/1.1 404 Not Found\r\n\r\n"

/-- The 200 response (line 81): status line, blank line, full file text. -/
def resp200 (content : String) : String := "HTTP/1.1 200 OK\r\n\r\n" ++ content

/-- The 404 response on `FileNotFoundError` (line 85): names the resolved
location and the error message. -/
def resp404 (loc e : String) : String :=
  "HTTP/1.1 404 Not Found\r\n\r\nCould not find " ++ (loc ++ (", server-stack: " ++ e))

/-- The message of the uncaught `IndexError` raised by `data.split()[2]`
(line 50) or `data.split(" ")[1]` (line 60) when the index is missing. -/
def indexErrMsg : String := "IndexError: list index out of range"

/-- Log line of line 47; `addr` stands for the formatted `ip:port`. -/
def recvLog (addr data : String) : String :=
  "[SERVER] Received from " ++ (addr ++ (": " ++ pyStrip data))

/-- Log line of line 51. -/
def log505 : String := "[SERVER] Got a non HTTP/1.1 request. Informing and closing socket"

/-- Log line of line 64. -/
def favLog (addr : String) : String :=
  "[SERVER] Got GET request for \x27favicon.ico\x27 from " ++ (addr ++ ". Returning 404")

/-- Log line of line 75. -/
def tryLog (loc : String) : String := "[SERVER] Got GET request, trying to open " ++ loc

/-- Log line of line 83 (the response is stripped before printing). -/
def sentLog (resp : String) : String := "[SERVER] Sent: " ++ pyStrip resp

/-- Log line of line 87 (the 404 response is printed unstripped). -/
def errLog (loc resp : String) : String :=
  "[SERVER] ERROR: could not find " ++ (loc ++ (". Sent: " ++ resp))

/-- Log line of line 93. -/
def log500 (data : String) : String :=
  "[SERVER] Got a non-GET request. Sending 500 error to client. Received: " ++ pyStrip data

/-- Log line of line 96. -/
def timeoutLog (addr : String) : String :=
  "[SERVER] Timeout reached for " ++ (addr ++ ". Closing socket and thread.")

/-- How one loop iteration hands control back:
- `next`: fall through / `continue`, the loop runs again, socket open;
- `closed505`: `sock.close()` then `return` after the 505 (lines 54-55);
- `timedOut`: the `while` condition failed, the timeout notice is logged,
  `sock.close()` then `return` (lines 96-98);
- `crashed`: an uncaught exception escaped the handler; the thread dies
  without sending anything further or executing `sock.close()`. -/
inductive StepControl where
  | next
  | closed505
  | timedOut
  | crashed (msg : String)
deriving DecidableEq, Repr

/-- Whether the handler itself executed `sock.close()` on this control
path. -/
def socket_closed : StepControl → Bool
  | .closed505 => true
  | .timedOut => true
  | .next => false
  | .crashed _ => false

/-- Observable outcome of one pass through the `while` loop of
`handle_client`, including the condition check at its top. -/
structure StepResult where
  sent : List String
  logs : List String
  time_now : Nat
  control : StepControl
deriving DecidableEq, Repr

/-- Lines 69-73: `/` maps to `www/index.html`; any other location is the
direct concatenation `"www" + location`. -/
def resolveLocation (loc : String) : String :=
  if loc = "/" then "www/index.html" else "www" ++ loc

/-- Lines 58-89: the branch taken when `data.startswith("GET")`.  `t2` is
the clock value of the `time.time()` call at line 89. -/
def handle_get (fs : FileSystem) (addr : String) (time_now t2 : Nat)
    (data : String) : StepResult :=
  match (pySplitSpace data)[1]? with
  | none =>
      { sent := [], logs := [recvLog addr data], time_now := time_now,
        control := .crashed indexErrMsg }
  | some loc0 =>
      if loc0 = "/favicon.ico" then
        { sent := [resp404fav], logs := [recvLog addr data, favLog addr],
          time_now := time_now, control := .next }
      else
        match fs (resolveLocation loc0) with
        | .ok c =>
            { sent := [resp200 c],
              logs := [recvLog addr data, tryLog (resolveLocation loc0),
                       sentLog (resp200 c)],
              time_now := t2, control := .next }
        | .errNotFound e =>
            { sent := [resp404 (resolveLocation loc0) e],
              logs := [recvLog addr data, tryLog (resolveLocation loc0),
                       errLog (resolveLocation loc0) (resp404 (resolveLocation loc0) e)],
              time_now := t2, control := .next }
        | .errOther e =>
            { sent := [],
              logs := [recvLog addr data, tryLog (resolveLocation loc0)],
              time_now := time_now, control := .crashed e }

/-- One pass through the `while` loop of `handle_client` (lines 37-94),
including the loop condition `time.time() < time_now + timeout`.  `t1` is
the clock value at the condition check, `data` the decoded `recv` result,
`t2` the clock value at line 89. -/
def handle_client_step (fs : FileSystem) (addr : String) (time_now t1 t2 : Nat)
    (data : String) : StepResult :=
  if t1 < time_now + timeout then
    if data = "" then
      { sent := [], logs := [], time_now := time_now, control := .next }
    else
      match (pySplitWs data)[2]? with
      | none =>
          { sent := [], logs := [recvLog addr data], time_now := time_now,
            control := .crashed indexErrMsg }
      | some tok =>
          if pyStrip tok = httpVersion then
            if pyStartsWith data "GET" then handle_get fs addr time_now t2 data
            else
              { sent := [resp500], logs := [recvLog addr data, log500 data],
                time_now := time_now, control := .next }
          else
            { sent := [resp505], logs := [recvLog addr data, log505],
              time_now := time_now, control := .closed505 }
  else
    { sent := [], logs := [timeoutLog addr], time_now := time_now,
      control := .timedOut }

/-- Outcome of running the handler loop over a finite trace of iterations:
either the connection is still open with the given deadline basis, or the
loop ended in one of the three terminal ways. -/
inductive TraceResult where
  | running (time_now : Nat)
  | closed505
  | timedOut
  | crashed (msg : String)
deriving DecidableEq, Repr

/-- Dispatch on a step's control: `next` continues with the new basis,
anything else ends the loop. -/
def contTrace (r : StepResult) (k : Nat → TraceResult) : TraceResult :=
  match r.control with
  | .next => k r.time_now
  | .closed505 => .closed505
  | .timedOut => .timedOut
  | .crashed m => .crashed m

/-- The `while` loop of `handle_client`, run over a finite trace of
iterations `(t1, t2, data)`. -/
def handle_client (fs : FileSystem) (addr : String) (time_now : Nat) :
    List (Nat × Nat × String) → TraceResult
  | [] => .running time_now
  | (t1, t2, data) :: rest =>
      contTrace (handle_client_step fs addr time_now t1 t2 data)
        (fun b => handle_client fs addr b rest)

/-- An open attempt that line 78-87 handles without crashing: success or
`FileNotFoundError`. -/
def served : OpenResult → Bool
  | .ok _ => true
  | .errNotFound _ => true
  | .errOther _ => false

/-- A request whose handling reaches line 89 and resets the deadline basis:
a well-formed `HTTP/1.1` request starting with `GET`, whose extracted
location is not `/favicon.ico`, and whose resolved location opens with
success or `FileNotFoundError`. -/
def ResettingGet (fs : FileSystem) (data : String) : Prop :=
  ∃ tok loc0,
    (pySplitWs data)[2]? = some tok ∧ pyStrip tok = httpVersion ∧
    pyStartsWith data "GET" = true ∧ (pySplitSpace data)[1]? = some loc0 ∧
    loc0 ≠ "/favicon.ico" ∧ served (fs (resolveLocation loc0)) = true

/-- Timing discipline of a trace whose every iteration resets the basis to
its `t2`: each condition check happens strictly before the current basis
plus the timeout. -/
def GoodTimes : Nat → List (Nat × Nat × String) → Prop
  | _, [] => True
  | tn, (t1, t2, _) :: rest => t1 < tn + timeout ∧ GoodTimes t2 rest

/-- A small concrete filesystem used to instantiate theorems. -/
def fsW : FileSystem := fun p =>
  if p = "www/index.html" then .ok "<html>hi</html>"
  else if p = "www/a.txt" then .ok "alpha"
  else .errNotFound "[Errno 2] No such file or directory"

/-- A filesystem on which every open fails with `FileNotFoundError`. -/
def fsNone : FileSystem := fun _ =>
  .errNotFound "[Errno 2] No such file or directory"

/-- A filesystem on which `www/favicon.ico` exists. -/
def fsFav : FileSystem := fun p =>
  if p = "www/favicon.ico" then .ok "ICON"
  else .errNotFound "[Errno 2] No such file or directory"

/-- A filesystem on which opening `www/dir` raises an error that is not a
`FileNotFoundError`. -/
def fsDir : FileSystem := fun p =>
  if p = "www/dir" then .errOther "IsADirectoryError: [Errno 21] Is a directory: \x27www/dir\x27"
  else .errNotFound "[Errno 2] No such file or directory"

theorem pySplitWs_empty : pySplitWs "" = [] := rfl

theorem dropWhile_eq_self_of_not (l : List Char)
    (h : ∀ c ∈ l, isPySpace c = false) : l.dropWhile isPySpace = l := by
  cases l with
  | nil => rfl
  | cons a t => simp [List.dropWhile_cons, h a (List.mem_cons_self a t)]

theorem pyStrip_of_no_space (s : String) (h : ∀ c ∈ s.toList, isPySpace c = false) :
    pyStrip s = s := by
  unfold pyStrip
  rw [dropWhile_eq_self_of_not _ h,
      dropWhile_eq_self_of_not _ (fun c hc => h c (List.mem_reverse.mp hc)),
      List.reverse_reverse]
  rfl

theorem wsTokensAux_no_space :
    ∀ (cs acc : List Char), (∀ c ∈ acc, isPySpace c = false) →
      ∀ tok ∈ wsTokensAux cs acc, ∀ c ∈ tok.toList, isPySpace c = false := by
  intro cs
  induction cs with
  | nil =>
    intro acc hacc tok htok c hc
    unfold wsTokensAux at htok
    cases hae : acc.isEmpty with
    | true => simp [hae] at htok
    | false =>
      simp [hae] at htok
      subst htok
      exact hacc c (List.mem_reverse.mp hc)
  | cons a tail ih =>
    intro acc hacc tok htok c hc
    unfold wsTokensAux at htok
    cases hsp : isPySpace a with
    | true =>
      simp only [hsp, if_true] at htok
      cases hae : acc.isEmpty with
      | true =>
        simp [hae] at htok
        exact ih [] (by simp) tok htok c hc
      | false =>
        simp [hae] at htok
        rcases htok with htok | htok
        · subst htok
          exact hacc c (List.mem_reverse.mp hc)
        · exact ih [] (by simp) tok htok c hc
    | false =>
      simp only [hsp, if_false] at htok
      refine ih (a :: acc) ?_ tok htok c hc
      intro c2 hc2
      rcases List.mem_cons.mp hc2 with hc2 | hc2
      · exact hc2 ▸ hsp
      · exact hacc c2 hc2

theorem pySplitWs_token_strip (data tok : String) (i : Nat)
    (h : (pySplitWs data)[i]? = some tok) : pyStrip tok = tok :=
  pyStrip_of_no_space tok
    (wsTokensAux_no_space data.toList [] (by simp) tok (List.getElem?_mem h))

theorem step_resetting (fs : FileSystem) (addr : String) (tn t1 t2 : Nat)
    (data : String) (h : ResettingGet fs data) (ht : t1 < tn + timeout) :
    (handle_client_step fs addr tn t1 t2 data).control = .next ∧
    (handle_client_step fs addr tn t1 t2 data).time_now = t2 := by
  obtain ⟨tok, loc0, htok, hver, hget, hloc, hfav, hserved⟩ := h
  have hne : data ≠ "" := by
    intro hd
    rw [hd, pySplitWs_empty] at htok
    simp at htok
  cases hfs : fs (resolveLocation loc0) with
  | ok c =>
    constructor <;>
      simp [handle_client_step, handle_get, htok, hver, hget, hloc, hfav, hfs, hne, ht]
  | errNotFound e =>
    constructor <;>
      simp [handle_client_step, handle_get, htok, hver, hget, hloc, hfav, hfs, hne, ht]
  | errOther e =>
    rw [hfs] at hserved
    simp [served] at hserved

theorem trace_keeps_running (fs : FileSystem) (addr : String) :
    ∀ (events : List (Nat × Nat × String)) (tn : Nat),
      (∀ e ∈ events, ResettingGet fs e.2.2) → GoodTimes tn events →
      ∃ b, handle_client fs addr tn events = .running b := by
  intro events
  induction events with
  | nil => intro tn _ _; exact ⟨tn, rfl⟩
  | cons ev rest ih =>
    obtain ⟨t1, t2, data⟩ := ev
    intro tn hres hgt
    obtain ⟨ht, hgt2⟩ := hgt
    have hr := step_resetting fs addr tn t1 t2 data
      (hres (t1, t2, data) (List.mem_cons_self _ _)) ht
    simp only [handle_client, contTrace, hr.1, hr.2]
    exact ih t2 (fun e he => hres e (List.mem_cons_of_mem _ he)) hgt2

/-- The well-formed favicon request used in the C3 counterexample. -/
def favReq : String := "GET /favicon.ico HTTP/1.1"

/-- C2 (confirmed): for every received request with at least 3
whitespace-separated tokens whose third token is not exactly `HTTP/1.1`,
the handler sends the 505 response with its explanatory body, closes the
connection and terminates: no further requests on the trace are read. -/
theorem C2_version_mismatch_505 (fs : FileSystem) (addr : String)
    (tn t1 t2 : Nat) (data tok : String) (rest : List (Nat × Nat × String))
    (ht : t1 < tn + timeout)
    (htok : (pySplitWs data)[2]? = some tok)
    (hver : tok ≠ httpVersion) :
    handle_client_step fs addr tn t1 t2 data =
      { sent := [resp505], logs := [recvLog addr data, log505],
        time_now := tn, control := .closed505 } ∧
    socket_closed .closed505 = true ∧
    handle_client fs addr tn ((t1, t2, data) :: rest) = .closed505 := by
  have hst : pyStrip tok ≠ httpVersion := by
    rw [pySplitWs_token_strip data tok 2 htok]; exact hver
  have hne : data ≠ "" := by
    intro hd; rw [hd, pySplitWs_empty] at htok; simp at htok
  have hstep : handle_client_step fs addr tn t1 t2 data =
      { sent := [resp505], logs := [recvLog addr data, log505],
        time_now := tn, control := .closed505 } := by
    simp [handle_client_step, htok, hst, hne, ht]
  refine ⟨hstep, rfl, ?_⟩
  simp only [handle_client, contTrace, hstep]

/-- C2 witness: the request `GET / HTTP/1.0` at time 0 triggers the 505
path and ends the trace. -/
theorem C2_witness :
    handle_client_step fsNone "a" 0 0 0 "GET / HTTP/1.0" =
      { sent := [resp505], logs := [recvLog "a" "GET / HTTP/1.0", log505],
        time_now := 0, control := .closed505 } ∧
    socket_closed .closed505 = true ∧
    handle_client fsNone "a" 0 [(0, 0, "GET / HTTP/1.0")] = .closed505 :=
  C2_version_mismatch_505 fsNone "a" 0 0 0 "GET / HTTP/1.0" "HTTP/1.0" []
    (by decide) (by decide) (by decide)

/-- C4 (code bug): on a request line with fewer than 3 whitespace-separated
tokens, `data.split()[2]` raises an uncaught `IndexError`: the handler
crashes, sends nothing, and never executes `sock.close()` — it does not
respond with any 505-equivalent rejection. -/
theorem C4_short_request_crash :
    (pySplitWs "GET /").length = 2 ∧
    handle_client_step fsNone "a" 0 0 0 "GET /" =
      { sent := [], logs := [recvLog "a" "GET /"], time_now := 0,
        control := .crashed indexErrMsg } ∧
    socket_closed (.crashed indexErrMsg) = false := by
  decide

/-- C5 (confirmed): for a GET request whose resolved location raises
`FileNotFoundError`, the response is the 404 message whose body names the
resolved path and the underlying error, and the loop continues with the
connection open. -/
theorem C5_not_found_404 (fs : FileSystem) (addr : String) (tn t1 t2 : Nat)
    (data tok loc0 e : String)
    (ht : t1 < tn + timeout)
    (htok : (pySplitWs data)[2]? = some tok)
    (hver : pyStrip tok = httpVersion)
    (hget : pyStartsWith data "GET" = true)
    (hloc : (pySplitSpace data)[1]? = some loc0)
    (hfav : loc0 ≠ "/favicon.ico")
    (hfs : fs (resolveLocation loc0) = .errNotFound e) :
    handle_client_step fs addr tn t1 t2 data =
      { sent := [resp404 (resolveLocation loc0) e],
        logs := [recvLog addr data, tryLog (resolveLocation loc0),
                 errLog (resolveLocation loc0) (resp404 (resolveLocation loc0) e)],
        time_now := t2, control := .next } ∧
    (∃ pre mid, resp404 (resolveLocation loc0) e =
        pre ++ (resolveLocation loc0 ++ (mid ++ e))) ∧
    socket_closed .next = false := by
  have hne : data ≠ "" := by
    intro hd; rw [hd, pySplitWs_empty] at htok; simp at htok
  refine ⟨?_, ⟨"HTTP/1.1 404 Not Found\r\n\r\nCould not find ",
    ", server-stack: ", rfl⟩, rfl⟩
  simp [handle_client_step, handle_get, htok, hver, hget, hloc, hfav, hfs, hne, ht]

/-- C5 witness: `GET /nope HTTP/1.1` against a filesystem with no files. -/
theorem C5_witness :
    handle_client_step fsNone "a" 0 0 7 "GET /nope HTTP/1.1" =
      { sent := [resp404 (resolveLocation "/nope") "[Errno 2] No such file or directory"],
        logs := [recvLog "a" "GET /nope HTTP/1.1", tryLog (resolveLocation "/nope"),
                 errLog (resolveLocation "/nope")
                   (resp404 (resolveLocation "/nope") "[Errno 2] No such file or directory")],
        time_now := 7, control := .next } ∧
    (∃ pre mid, resp404 (resolveLocation "/nope") "[Errno 2] No such file or directory" =
        pre ++ (resolveLocation "/nope" ++ (mid ++ "[Errno 2] No such file or directory"))) ∧
    socket_closed .next = false :=
  C5_not_found_404 fsNone "a" 0 0 7 "GET /nope HTTP/1.1" "HTTP/1.1" "/nope"
    "[Errno 2] No such file or directory"
    (by decide) (by decide) (by decide) (by decide) (by decide) (by decide) (by decide)

/-- C6 counterexample: the claim quantifies over the method token.  The
request `GETFOO / HTTP/1.1` has method token `GETFOO` (not `GET`) yet is
served by the GET branch, not answered 500; the request `POST / HTTP/1.0`
has method token `POST` (not `GET`) yet is answered 505 with the
connection closed, not 500 with the connection open. -/
theorem C6_counterexample :
    ((pySplitWs "GETFOO / HTTP/1.1")[0]? = some "GETFOO" ∧ "GETFOO" ≠ "GET" ∧
     (handle_client_step fsNone "a" 0 0 0 "GETFOO / HTTP/1.1").sent ≠ [resp500]) ∧
    ((pySplitWs "POST / HTTP/1.0")[0]? = some "POST" ∧ "POST" ≠ "GET" ∧
     (handle_client_step fsNone "a" 0 0 0 "POST / HTTP/1.0").sent = [resp505] ∧
     (handle_client_step fsNone "a" 0 0 0 "POST / HTTP/1.0").control = .closed505) := by
  decide

/-- C6 (corrected): for every received request that passes the version
check (third whitespace token exactly `HTTP/1.1`) and whose decoded text
does not begin with the characters `GET`, the handler sends the bare
status text `HTTP/1.1 500 Internal Server Error` with no separator and no
body, keeps the connection open, and leaves the idle-deadline basis
unchanged. -/
theorem C6_non_get_500 (fs : FileSystem) (addr : String) (tn t1 t2 : Nat)
    (data tok : String)
    (ht : t1 < tn + timeout)
    (htok : (pySplitWs data)[2]? = some tok)
    (hver : pyStrip tok = httpVersion)
    (hget : pyStartsWith data "GET" = false) :
    handle_client_step fs addr tn t1 t2 data =
      { sent := [resp500], logs := [recvLog addr data, log500 data],
        time_now := tn, control := .next } ∧
    socket_closed .next = false := by
  have hne : data ≠ "" := by
    intro hd; rw [hd, pySplitWs_empty] at htok; simp at htok
  refine ⟨?_, rfl⟩
  simp [handle_client_step, htok, hver, hget, hne, ht]

/-- C6 witness: `POST / HTTP/1.1` at time 0. -/
theorem C6_witness :
    handle_client_step fsNone "a" 4 5 9 "POST / HTTP/1.1" =
      { sent := [resp500], logs := [recvLog "a" "POST / HTTP/1.1", log500 "POST / HTTP/1.1"],
        time_now := 4, control := .next } ∧
    socket_closed .next = false :=
  C6_non_get_500 fsNone "a" 4 5 9 "POST / HTTP/1.1" "HTTP/1.1"
    (by decide) (by decide) (by decide) (by decide)

/-- C9 (confirmed): a well-formed GET request whose extracted location is
exactly `/favicon.ico` is answered `HTTP/1.1 404 Not Found\r\n\r\n` with an
empty body, the loop continues without closing the connection, and the
result is the same for every filesystem — the static resolver is never
consulted. -/
theorem C9_favicon_404 (fs : FileSystem) (addr : String) (tn t1 t2 : Nat)
    (data tok : String)
    (ht : t1 < tn + timeout)
    (htok : (pySplitWs data)[2]? = some tok)
    (hver : pyStrip tok = httpVersion)
    (hget : pyStartsWith data "GET" = true)
    (hloc : (pySplitSpace data)[1]? = some "/favicon.ico") :
    handle_client_step fs addr tn t1 t2 data =
      { sent := [resp404fav], logs := [recvLog addr data, favLog addr],
        time_now := tn, control := .next } ∧
    (∀ fs2 : FileSystem, handle_client_step fs2 addr tn t1 t2 data =
        handle_client_step fs addr tn t1 t2 data) ∧
    socket_closed .next = false := by
  have hne : data ≠ "" := by
    intro hd; rw [hd, pySplitWs_empty] at htok; simp at htok
  have hmain : ∀ fs3 : FileSystem, handle_client_step fs3 addr tn t1 t2 data =
      { sent := [resp404fav], logs := [recvLog addr data, favLog addr],
        time_now := tn, control := .next } := by
    intro fs3
    simp [handle_client_step, handle_get, htok, hver, hget, hloc, hne, ht]
  exact ⟨hmain fs, fun fs2 => (hmain fs2).trans (hmain fs).symm, rfl⟩

/-- C9 witness: `GET /favicon.ico HTTP/1.1` against a filesystem on which
`www/favicon.ico` even exists; the shortcut still answers the empty 404. -/
theorem C9_witness :
    handle_client_step fsFav "a" 0 0 9 favReq =
      { sent := [resp404fav], logs := [recvLog "a" favReq, favLog "a"],
        time_now := 0, control := .next } ∧
    (∀ fs2 : FileSystem, handle_client_step fs2 "a" 0 0 9 favReq =
        handle_client_step fsFav "a" 0 0 9 favReq) ∧
    socket_closed .next = false :=
  C9_favicon_404 fsFav "a" 0 0 9 favReq "HTTP/1.1"
    (by decide) (by decide) (by decide) (by decide) (by decide)

/-- C10 (confirmed): every received request whose decoded text begins with
the characters `GET` and which passes the version check is dispatched to
the GET-serving branch `handle_get` — the test is `data.startswith("GET")`,
so this holds even when the first whitespace-separated token is not exactly
`GET`. -/
theorem C10_startswith_get_branch (fs : FileSystem) (addr : String)
    (tn t1 t2 : Nat) (data tok : String)
    (ht : t1 < tn + timeout)
    (htok : (pySplitWs data)[2]? = some tok)
    (hver : pyStrip tok = httpVersion)
    (hget : pyStartsWith data "GET" = true) :
    handle_client_step fs addr tn t1 t2 data = handle_get fs addr tn t2 data := by
  have hne : data ≠ "" := by
    intro hd; rw [hd, pySplitWs_empty] at htok; simp at htok
  simp [handle_client_step, htok, hver, hget, hne, ht]

/-- C10 witness: the request `GETFOO /x HTTP/1.1`, whose method token is
`GETFOO`, is dispatched to the GET branch and served as a static-file
request for `/x` (here a 404, not the 500 of the non-GET branch). -/
theorem C10_witness :
    handle_client_step fsNone "a" 0 0 3 "GETFOO /x HTTP/1.1" =
      handle_get fsNone "a" 0 3 "GETFOO /x HTTP/1.1" ∧
    (handle_get fsNone "a" 0 3 "GETFOO /x HTTP/1.1").sent =
      [resp404 "www/x" "[Errno 2] No such file or directory"] :=
  ⟨C10_startswith_get_branch fsNone "a" 0 0 3 "GETFOO /x HTTP/1.1" "HTTP/1.1"
    (by decide) (by decide) (by decide) (by decide), by decide⟩

/-- C1 counterexample: the claim quantifies over every target path other
than `/`, but the target path `/favicon.ico` is intercepted by the favicon
shortcut before resolution: even when the concatenated file
`www/favicon.ico` exists, the response sent is the empty-body 404, not the
200 response followed by the file's contents. -/
theorem C1_counterexample :
    fsFav (resolveLocation "/favicon.ico") = .ok "ICON" ∧
    (handle_client_step fsFav "a" 0 0 0 "GET /favicon.ico HTTP/1.1").sent = [resp404fav] ∧
    (handle_client_step fsFav "a" 0 0 0 "GET /favicon.ico HTTP/1.1").sent ≠
      [resp200 "ICON"] := by
  decide

/-- C1 (corrected): for a well-formed GET request whose extracted target
path is not `/favicon.ico`, the handler resolves `/` to `www/index.html`
and any other path `P` to the direct concatenation `www` + `P` with no
normalization; when the resolved file exists, the single response sent is
exactly `HTTP/1.1 200 OK\r\n\r\n` followed by the file's full current
contents, and the loop continues. -/
theorem C1_resolution_and_200 (fs : FileSystem) (addr : String)
    (tn t1 t2 : Nat) (data tok loc0 c : String)
    (ht : t1 < tn + timeout)
    (htok : (pySplitWs data)[2]? = some tok)
    (hver : pyStrip tok = httpVersion)
    (hget : pyStartsWith data "GET" = true)
    (hloc : (pySplitSpace data)[1]? = some loc0)
    (hfav : loc0 ≠ "/favicon.ico")
    (hfs : fs (resolveLocation loc0) = .ok c) :
    resolveLocation loc0 = (if loc0 = "/" then "www/index.html" else "www" ++ loc0) ∧
    handle_client_step fs addr tn t1 t2 data =
      { sent := [resp200 c],
        logs := [recvLog addr data, tryLog (resolveLocation loc0), sentLog (resp200 c)],
        time_now := t2, control := .next } ∧
    resp200 c = "HTTP/1.1 200 OK\r\n\r\n" ++ c := by
  have hne : data ≠ "" := by
    intro hd; rw [hd, pySplitWs_empty] at htok; simp at htok
  refine ⟨rfl, ?_, rfl⟩
  simp [handle_client_step, handle_get, htok, hver, hget, hloc, hfav, hfs, hne, ht]

/-- C1 witness: `GET / HTTP/1.1` against a filesystem whose
`www/index.html` holds a concrete document. -/
theorem C1_witness :
    resolveLocation "/" = (if "/" = "/" then "www/index.html" else "www" ++ "/") ∧
    handle_client_step fsW "a" 0 0 8 "GET / HTTP/1.1" =
      { sent := [resp200 "<html>hi</html>"],
        logs := [recvLog "a" "GET / HTTP/1.1", tryLog (resolveLocation "/"),
                 sentLog (resp200 "<html>hi</html>")],
        time_now := 8, control := .next } ∧
    resp200 "<html>hi</html>" = "HTTP/1.1 200 OK\r\n\r\n" ++ "<html>hi</html>" :=
  C1_resolution_and_200 fsW "a" 0 0 8 "GET / HTTP/1.1" "HTTP/1.1" "/" "<html>hi</html>"
    (by decide) (by decide) (by decide) (by decide) (by decide) (by decide) (by decide)

/-- C3 counterexample: a connection that receives a new valid GET request
every 10 seconds — strictly less than every 30 seconds — is nevertheless
closed by the timeout, because the requests are favicon requests, which
never reset the deadline basis. -/
theorem C3_counterexample :
    (pySplitWs favReq)[2]? = some "HTTP/1.1" ∧
    pyStartsWith favReq "GET" = true ∧
    (pySplitSpace favReq)[1]? = some "/favicon.ico" ∧
    handle_client fsFav "a" 0
      [(0, 0, favReq), (10, 10, favReq), (20, 20, favReq), (30, 30, favReq)] =
      .timedOut := by
  decide

/-- C3 (corrected): (1) whenever the clock at the loop condition has
reached the deadline basis plus 30 seconds, the step logs the timeout
notice, closes the connection and exits; (2) a connection whose every
iteration carries a deadline-resetting GET request (well-formed,
non-favicon, answered 200 or 404) and whose every condition check happens
strictly within 30 seconds of the current basis is never closed: the trace
ends still running. -/
theorem C3_timeout_behavior :
    (∀ (fs : FileSystem) (addr : String) (tn t1 t2 : Nat) (data : String),
        tn + timeout ≤ t1 →
        handle_client_step fs addr tn t1 t2 data =
          { sent := [], logs := [timeoutLog addr], time_now := tn,
            control := .timedOut } ∧ socket_closed .timedOut = true) ∧
    (∀ (fs : FileSystem) (addr : String) (tn : Nat)
        (events : List (Nat × Nat × String)),
        (∀ e ∈ events, ResettingGet fs e.2.2) → GoodTimes tn events →
        ∃ b, handle_client fs addr tn events = .running b) := by
  constructor
  · intro fs addr tn t1 t2 data h
    have hnlt : ¬ t1 < tn + timeout := Nat.not_lt.mpr h
    refine ⟨?_, rfl⟩
    simp [handle_client_step, hnlt]
  · intro fs addr tn events h1 h2
    exact trace_keeps_running fs addr events tn h1 h2

/-- C3 witness: at clock 30 with basis 0 the step times out and closes;
a two-request trace of valid non-favicon GETs arriving within the window
(checks at 0 and 20, bases reset to 5 and 25) stays running. -/
theorem C3_witness :
    (handle_client_step fsW "a" 0 30 0 "GET / HTTP/1.1" =
      { sent := [], logs := [timeoutLog "a"], time_now := 0,
        control := .timedOut } ∧ socket_closed .timedOut = true) ∧
    (∃ b, handle_client fsW "a" 0
        [(0, 5, "GET / HTTP/1.1"), (20, 25, "GET /a.txt HTTP/1.1")] = .running b) :=
  ⟨C3_timeout_behavior.1 fsW "a" 0 30 0 "GET / HTTP/1.1" (by decide),
   C3_timeout_behavior.2 fsW "a" 0
     [(0, 5, "GET / HTTP/1.1"), (20, 25, "GET /a.txt HTTP/1.1")]
     (by
       intro e he
       rcases List.mem_cons.mp he with rfl | he2
       · exact ⟨"HTTP/1.1", "/", by decide, by decide, by decide, by decide,
           by decide, by decide⟩
       · rcases List.mem_cons.mp he2 with rfl | he3
         · exact ⟨"HTTP/1.1", "/a.txt", by decide, by decide, by decide, by decide,
             by decide, by decide⟩
         · cases he3)
     ⟨by decide, by decide, trivial⟩⟩

/-- C7 (confirmed): (1) an iteration whose read yields no data leaves the
deadline basis (and everything else) unchanged and continues; (2) after a
GET handled with a 200 or 404 response the basis is set to the current
clock `t2`, so the deadline becomes `t2 + 30`; (3) the favicon shortcut
leaves the basis unchanged. -/
theorem C7_deadline_basis :
    (∀ (fs : FileSystem) (addr : String) (tn t1 t2 : Nat), t1 < tn + timeout →
        handle_client_step fs addr tn t1 t2 "" =
          { sent := [], logs := [], time_now := tn, control := .next }) ∧
    (∀ (fs : FileSystem) (addr : String) (tn t1 t2 : Nat) (data tok loc0 : String),
        t1 < tn + timeout →
        (pySplitWs data)[2]? = some tok → pyStrip tok = httpVersion →
        pyStartsWith data "GET" = true → (pySplitSpace data)[1]? = some loc0 →
        loc0 ≠ "/favicon.ico" → served (fs (resolveLocation loc0)) = true →
        (handle_client_step fs addr tn t1 t2 data).time_now = t2) ∧
    (∀ (fs : FileSystem) (addr : String) (tn t1 t2 : Nat) (data tok : String),
        t1 < tn + timeout →
        (pySplitWs data)[2]? = some tok → pyStrip tok = httpVersion →
        pyStartsWith data "GET" = true →
        (pySplitSpace data)[1]? = some "/favicon.ico" →
        (handle_client_step fs addr tn t1 t2 data).time_now = tn) := by
  refine ⟨?_, ?_, ?_⟩
  · intro fs addr tn t1 t2 ht
    simp [handle_client_step, ht]
  · intro fs addr tn t1 t2 data tok loc0 ht htok hver hget hloc hfav hserved
    exact (step_resetting fs addr tn t1 t2 data
      ⟨tok, loc0, htok, hver, hget, hloc, hfav, hserved⟩ ht).2
  · intro fs addr tn t1 t2 data tok ht htok hver hget hloc
    have hne : data ≠ "" := by
      intro hd; rw [hd, pySplitWs_empty] at htok; simp at htok
    simp [handle_client_step, handle_get, htok, hver, hget, hloc, hne, ht]

/-- C7 witness: an empty read at clock 5 keeps basis 0; `GET / HTTP/1.1`
handled at clock 7 sets the basis to 7; the favicon request keeps basis 0. -/
theorem C7_witness :
    handle_client_step fsW "a" 0 5 9 "" =
      { sent := [], logs := [], time_now := 0, control := .next } ∧
    (handle_client_step fsW "a" 0 1 7 "GET / HTTP/1.1").time_now = 7 ∧
    (handle_client_step fsW "a" 0 1 7 favReq).time_now = 0 :=
  ⟨C7_deadline_basis.1 fsW "a" 0 5 9 (by decide),
   C7_deadline_basis.2.1 fsW "a" 0 1 7 "GET / HTTP/1.1" "HTTP/1.1" "/"
     (by decide) (by decide) (by decide) (by decide) (by decide) (by decide) (by decide),
   C7_deadline_basis.2.2 fsW "a" 0 1 7 favReq "HTTP/1.1"
     (by decide) (by decide) (by decide) (by decide) (by decide)⟩

/-- C8 counterexample: an open failure that is not a `FileNotFoundError`
(here an `IsADirectoryError` on `www/dir`) is not converted into the
not-found result: nothing is sent and the exception escapes the
`try`/`except` boundary, crashing the handler. -/
theorem C8_counterexample :
    fsDir (resolveLocation "/dir") =
      .errOther "IsADirectoryError: [Errno 21] Is a directory: \x27www/dir\x27" ∧
    handle_client_step fsDir "a" 0 0 0 "GET /dir HTTP/1.1" =
      { sent := [], logs := [recvLog "a" "GET /dir HTTP/1.1", tryLog "www/dir"],
        time_now := 0,
        control := .crashed "IsADirectoryError: [Errno 21] Is a directory: \x27www/dir\x27" } := by
  decide

/-- C8 (corrected): for a well-formed non-favicon GET request, an open
failure of kind `FileNotFoundError` yields the not-found response carrying
the attempted path and the error description and the loop continues, while
an open failure of any other kind sends nothing and propagates uncaught,
crashing the handler. -/
theorem C8_open_failure (fs : FileSystem) (addr : String) (tn t1 t2 : Nat)
    (data tok loc0 : String)
    (ht : t1 < tn + timeout)
    (htok : (pySplitWs data)[2]? = some tok)
    (hver : pyStrip tok = httpVersion)
    (hget : pyStartsWith data "GET" = true)
    (hloc : (pySplitSpace data)[1]? = some loc0)
    (hfav : loc0 ≠ "/favicon.ico") :
    (∀ e, fs (resolveLocation loc0) = .errNotFound e →
        (handle_client_step fs addr tn t1 t2 data).sent =
          [resp404 (resolveLocation loc0) e] ∧
        (handle_client_step fs addr tn t1 t2 data).control = .next) ∧
    (∀ e, fs (resolveLocation loc0) = .errOther e →
        (handle_client_step fs addr tn t1 t2 data).sent = [] ∧
        (handle_client_step fs addr tn t1 t2 data).control = .crashed e) := by
  have hne : data ≠ "" := by
    intro hd; rw [hd, pySplitWs_empty] at htok; simp at htok
  constructor
  · intro e hfs
    constructor <;>
      simp [handle_client_step, handle_get, htok, hver, hget, hloc, hfav, hfs, hne, ht]
  · intro e hfs
    constructor <;>
      simp [handle_client_step, handle_get, htok, hver, hget, hloc, hfav, hfs, hne, ht]

/-- C8 witness: on `fsDir`, `GET /dir HTTP/1.1` crashes with the
`IsADirectoryError`; on `fsNone`, `GET /nope HTTP/1.1` is answered with the
diagnostic 404 and the loop continues. -/
theorem C8_witness :
    ((handle_client_step fsDir "a" 0 0 0 "GET /dir HTTP/1.1").sent = [] ∧
     (handle_client_step fsDir "a" 0 0 0 "GET /dir HTTP/1.1").control =
       .crashed "IsADirectoryError: [Errno 21] Is a directory: \x27www/dir\x27") ∧
    ((handle_client_step fsNone "a" 0 0 0 "GET /nope HTTP/1.1").sent =
       [resp404 (resolveLocation "/nope") "[Errno 2] No such file or directory"] ∧
     (handle_client_step fsNone "a" 0 0 0 "GET /nope HTTP/1.1").control = .next) :=
  ⟨(C8_open_failure fsDir "a" 0 0 0 "GET /dir HTTP/1.1" "HTTP/1.1" "/dir"
      (by decide) (by decide) (by decide) (by decide) (by decide) (by decide)).2
      "IsADirectoryError: [Errno 21] Is a directory: \x27www/dir\x27" (by decide),
   (C8_open_failure fsNone "a" 0 0 0 "GET /nope HTTP/1.1" "HTTP/1.1" "/nope"
      (by decide) (by decide) (by decide) (by decide) (by decide) (by decide)).1
      "[Errno 2] No such file or directory" (by decide)⟩
